import Mathlib

/-!
Shallow embedding of the Snake game engine from
`src/src/components/SnakeGame.tsx`.

The component's state hooks become the fields of `GameState`; the
`moveSnake` callback of the game-loop effect, the `generateFood`
rejection loop, the `handleSwipe` / `handleKeyDown` direction guard and
`initGame` become Lean functions.  Randomness is modelled by an explicit
list of candidate cells: `generateFood` returns the first listed
candidate not occupied by the snake, and `none` stands for the rejection
loop never exiting (no listed candidate is free).
-/

namespace Snake

/-- Grid cell: the `Position` type of the source (lines 4-7), an integer
pair `{x, y}`. -/
@[ext]
structure Position where
  x : Int
  y : Int
deriving DecidableEq, Repr

/-- Movement direction: the `Direction` union type of the source (line 9). -/
inductive Direction where
  | UP
  | DOWN
  | LEFT
  | RIGHT
deriving DecidableEq, Repr

/-- Game lifecycle status: the `GameStatus` union type of the source
(line 11). -/
inductive GameStatus where
  | IDLE
  | PLAYING
  | GAME_OVER
deriving DecidableEq, Repr

/-- Board side length, `BOARD_SIZE = 20` (line 14). -/
def BOARD_SIZE : Int := 20

/-- Starting tick interval, `INITIAL_SPEED = 150` (line 15). -/
def INITIAL_SPEED : Int := 150

/-- Smallest tick interval, `MIN_SPEED = 50` (line 16). -/
def MIN_SPEED : Int := 50

/-- Interval decrement per food eaten, `SPEED_INCREMENT = 5` (line 17). -/
def SPEED_INCREMENT : Int := 5

/-- Starting snake body, `INITIAL_SNAKE` (lines 18-22), head first. -/
def INITIAL_SNAKE : List Position := [⟨10, 10⟩, ⟨10, 11⟩, ⟨10, 12⟩]

/-- The component's game state: the `useState` hooks of lines 26-31
(`snake`, `food`, `direction`, `gameStatus`, `score`, `speed`). -/
structure GameState where
  snake : List Position
  food : Position
  direction : Direction
  gameStatus : GameStatus
  score : Int
  speed : Int
deriving DecidableEq, Repr

/-- The `isPositionOccupied` helper inside `generateFood` (line 39):
whether some snake segment has the same coordinates as `pos`. -/
def isPositionOccupied (snakeBody : List Position) (pos : Position) : Bool :=
  snakeBody.any fun segment => segment.x == pos.x && segment.y == pos.y

/-- The `generateFood` rejection loop (lines 38-51): draw successive
candidate cells and keep the first one not occupied by the snake.
The `do`/`while` draws from `Math.random`; here the draws are the
explicit list `candidates`, and `none` models the loop never exiting
because every listed candidate is occupied. -/
def generateFood (snakeBody : List Position) (candidates : List Position) :
    Option Position :=
  candidates.find? fun p => !isPositionOccupied snakeBody p

/-- One-cell head displacement: the `switch (directionRef.current)` of
`moveSnake` (lines 124-137). -/
def moveHead (head : Position) : Direction → Position
  | .UP => { head with y := head.y - 1 }
  | .DOWN => { head with y := head.y + 1 }
  | .LEFT => { head with x := head.x - 1 }
  | .RIGHT => { head with x := head.x + 1 }

/-- Wall test of `moveSnake` (lines 140-145):
`head.x < 0 || head.x >= BOARD_SIZE || head.y < 0 || head.y >= BOARD_SIZE`. -/
def outOfBounds (p : Position) : Bool :=
  decide (p.x < 0) || decide (BOARD_SIZE ≤ p.x) ||
    decide (p.y < 0) || decide (BOARD_SIZE ≤ p.y)

/-- The `moveSnake` callback of the game-loop effect (lines 119-177),
with the accompanying `setScore`, `setSpeed` and `generateFood` calls of
the food branch folded into one state transition.  `candidates` feeds
the `generateFood` call of line 169.  `none` models the unreachable
`prevSnake[0]` access on an empty snake and a `generateFood` call whose
listed candidates are all occupied. -/
def moveSnake (candidates : List Position) (s : GameState) : Option GameState :=
  match s.snake with
  | [] => none
  | head :: _ =>
    let h := moveHead head s.direction
    if outOfBounds h then
      some { s with gameStatus := .GAME_OVER }
    else if isPositionOccupied s.snake h then
      some { s with gameStatus := .GAME_OVER }
    else
      let newSnake := h :: s.snake
      if h.x == s.food.x && h.y == s.food.y then
        match generateFood newSnake candidates with
        | some f =>
          some { s with
                  snake := newSnake
                  food := f
                  score := s.score + 10
                  speed := max MIN_SPEED (s.speed - SPEED_INCREMENT) }
        | none => none
      else
        some { s with snake := newSnake.dropLast }

/-- One full timer tick of the component.  While `gameStatus` is not
`PLAYING` the game-loop effect (line 117) registers no interval, so the
state is untouched.  Otherwise `moveSnake` runs, and afterwards the food
effect of lines 184-186 (`useEffect(... generateFood(snake) ..., [generateFood, snake])`)
re-runs whenever the snake array changed — `moveSnake` returns the
previous array exactly on a collision, and any new array it returns
differs from the previous one in content as well, so the dependency
comparison is modelled by equality of the snake lists.  `c₁` feeds the
`generateFood` call inside `moveSnake`, `c₂` the one of the effect. -/
def tick (c₁ c₂ : List Position) (s : GameState) : Option GameState :=
  if s.gameStatus = .PLAYING then
    match moveSnake c₁ s with
    | none => none
    | some s' =>
      if s'.snake = s.snake then some s'
      else
        match generateFood s'.snake c₂ with
        | some f => some { s' with food := f }
        | none => none
  else
    some s

/-- Iterated ticks, each with its own pair of candidate streams. -/
def ticks : List (List Position × List Position) → GameState → Option GameState
  | [], s => some s
  | (c₁, c₂) :: rest, s =>
    match tick c₁ c₂ s with
    | some s' => ticks rest s'
    | none => none

/-- Direction-change request: `handleSwipe` (lines 198-227); the
direction part of `handleKeyDown` (lines 73-108) is the same guard for
each key.  Ignored unless the status is `PLAYING`; each requested
direction is ignored when the current direction is its opposite. -/
def handleSwipe (dir : Direction) (s : GameState) : GameState :=
  if s.gameStatus ≠ .PLAYING then s
  else
    match dir with
    | .UP => if s.direction ≠ .DOWN then { s with direction := .UP } else s
    | .DOWN => if s.direction ≠ .UP then { s with direction := .DOWN } else s
    | .LEFT => if s.direction ≠ .RIGHT then { s with direction := .LEFT } else s
    | .RIGHT => if s.direction ≠ .LEFT then { s with direction := .RIGHT } else s

/-- Game (re)initialization: `initGame` (lines 54-63).  The previous
state is ignored entirely; `candidates` feeds the `generateFood` call of
line 60. -/
def initGame (candidates : List Position) (_prev : GameState) : Option GameState :=
  match generateFood INITIAL_SNAKE candidates with
  | some f =>
    some { snake := INITIAL_SNAKE
           food := f
           direction := .UP
           gameStatus := .PLAYING
           score := 0
           speed := INITIAL_SPEED }
  | none => none

/-- Reverse of a direction: the spec's "direct reverse" that the input
guard rejects. -/
def Direction.reverse : Direction → Direction
  | .UP => .DOWN
  | .DOWN => .UP
  | .LEFT => .RIGHT
  | .RIGHT => .LEFT

/-! Concrete states used to instantiate the theorems. -/

/-- A mid-game state: the initial snake, food at `(5,5)` (the `useState`
default of line 27), heading `UP`, status `PLAYING`. -/
def exampleState : GameState :=
  { snake := [⟨10, 10⟩, ⟨10, 11⟩, ⟨10, 12⟩], food := ⟨5, 5⟩, direction := .UP,
    gameStatus := .PLAYING, score := 0, speed := 150 }

/-- Result of one non-eating tick from `exampleState` when the food
effect draws `(0,0)`: the snake advanced to `(10,9)` and the food was
relocated. -/
def movedState : GameState :=
  { snake := [⟨10, 9⟩, ⟨10, 10⟩, ⟨10, 11⟩], food := ⟨0, 0⟩, direction := .UP,
    gameStatus := .PLAYING, score := 0, speed := 150 }

/-- `exampleState` with the food directly above the head. -/
def eatState : GameState :=
  { exampleState with food := ⟨10, 9⟩ }

/-- Result of the eating tick from `eatState` when the food effect draws
`(3,3)`: the snake grew, score and speed were updated, food relocated. -/
def eatenState : GameState :=
  { snake := [⟨10, 9⟩, ⟨10, 10⟩, ⟨10, 11⟩, ⟨10, 12⟩], food := ⟨3, 3⟩, direction := .UP,
    gameStatus := .PLAYING, score := 10, speed := 145 }

/-- A state whose next move hits the left wall. -/
def wallState : GameState :=
  { exampleState with snake := [⟨0, 5⟩, ⟨1, 5⟩], direction := .LEFT }

/-- A two-cell snake about to move onto its own tail. -/
def tailState : GameState :=
  { exampleState with snake := [⟨10, 10⟩, ⟨10, 11⟩], direction := .DOWN }

/-- A finished game. -/
def gameOverState : GameState :=
  { exampleState with gameStatus := .GAME_OVER }

/-! Basic lemmas about the embedded helpers. -/

theorem position_beq_iff (a b : Position) :
    (a.x == b.x && a.y == b.y) = true ↔ a = b := by
  constructor
  · intro h
    simp only [Bool.and_eq_true, beq_iff_eq] at h
    exact Position.ext h.1 h.2
  · rintro rfl
    simp

theorem isPositionOccupied_iff (l : List Position) (p : Position) :
    isPositionOccupied l p = true ↔ p ∈ l := by
  unfold isPositionOccupied
  rw [List.any_eq_true]
  constructor
  · rintro ⟨a, ha, hb⟩
    rw [position_beq_iff] at hb
    exact hb ▸ ha
  · intro hp
    exact ⟨p, hp, (position_beq_iff p p).mpr rfl⟩

theorem generateFood_not_occupied (body c : List Position) (f : Position)
    (h : generateFood body c = some f) : isPositionOccupied body f = false := by
  unfold generateFood at h
  have hf := List.find?_some h
  simpa using hf

theorem moveHead_ne (p : Position) (d : Direction) : moveHead p d ≠ p := by
  cases d <;> simp [moveHead, Position.ext_iff]

/-! Branch characterizations of `moveSnake` and `tick`. -/

theorem moveSnake_cons (c : List Position) (s : GameState) (head : Position)
    (t : List Position) (hsn : s.snake = head :: t) :
    moveSnake c s =
      (let h := moveHead head s.direction
       if outOfBounds h then some { s with gameStatus := .GAME_OVER }
       else if isPositionOccupied s.snake h then
         some { s with gameStatus := .GAME_OVER }
       else if h.x == s.food.x && h.y == s.food.y then
         match generateFood (h :: s.snake) c with
         | some f =>
           some { s with
                   snake := h :: s.snake
                   food := f
                   score := s.score + 10
                   speed := max MIN_SPEED (s.speed - SPEED_INCREMENT) }
         | none => none
       else some { s with snake := (h :: s.snake).dropLast }) := by
  unfold moveSnake
  rw [hsn]

theorem tick_not_playing (c₁ c₂ : List Position) (s : GameState)
    (h : s.gameStatus ≠ .PLAYING) : tick c₁ c₂ s = some s := by
  simp [tick, h]

theorem tick_nil (c₁ c₂ : List Position) (s : GameState)
    (hp : s.gameStatus = .PLAYING) (h : s.snake = []) : tick c₁ c₂ s = none := by
  simp [tick, hp, moveSnake, h]

theorem tick_oob (c₁ c₂ : List Position) (s : GameState) (head : Position)
    (t : List Position) (hp : s.gameStatus = .PLAYING) (hsn : s.snake = head :: t)
    (hoob : outOfBounds (moveHead head s.direction) = true) :
    tick c₁ c₂ s = some { s with gameStatus := .GAME_OVER } := by
  have hms : moveSnake c₁ s = some { s with gameStatus := .GAME_OVER } := by
    rw [moveSnake_cons c₁ s head t hsn]
    simp [hoob]
  simp [tick, hp, hms]

theorem tick_self (c₁ c₂ : List Position) (s : GameState) (head : Position)
    (t : List Position) (hp : s.gameStatus = .PLAYING) (hsn : s.snake = head :: t)
    (hoob : outOfBounds (moveHead head s.direction) = false)
    (hocc : isPositionOccupied s.snake (moveHead head s.direction) = true) :
    tick c₁ c₂ s = some { s with gameStatus := .GAME_OVER } := by
  have hms : moveSnake c₁ s = some { s with gameStatus := .GAME_OVER } := by
    rw [moveSnake_cons c₁ s head t hsn]
    simp [hoob, hocc]
  simp [tick, hp, hms]

theorem tick_eat (c₁ c₂ : List Position) (s : GameState) (head f₁ f₂ : Position)
    (t : List Position) (hp : s.gameStatus = .PLAYING) (hsn : s.snake = head :: t)
    (hoob : outOfBounds (moveHead head s.direction) = false)
    (hocc : isPositionOccupied s.snake (moveHead head s.direction) = false)
    (hf : moveHead head s.direction = s.food)
    (hg₁ : generateFood (moveHead head s.direction :: s.snake) c₁ = some f₁)
    (hg₂ : generateFood (moveHead head s.direction :: s.snake) c₂ = some f₂) :
    tick c₁ c₂ s =
      some { s with
              snake := moveHead head s.direction :: s.snake
              food := f₂
              score := s.score + 10
              speed := max MIN_SPEED (s.speed - SPEED_INCREMENT) } := by
  have hcond : ((moveHead head s.direction).x == s.food.x &&
      (moveHead head s.direction).y == s.food.y) = true :=
    (position_beq_iff _ _).mpr hf
  have hms : moveSnake c₁ s =
      some { s with
              snake := moveHead head s.direction :: s.snake
              food := f₁
              score := s.score + 10
              speed := max MIN_SPEED (s.speed - SPEED_INCREMENT) } := by
    rw [moveSnake_cons c₁ s head t hsn]
    simp [hoob, hocc, hcond, hg₁]
  have hne : moveHead head s.direction :: s.snake ≠ s.snake :=
    List.cons_ne_self _ _
  simp [tick, hp, hms, hne, hg₂]

theorem tick_eat_none₁ (c₁ c₂ : List Position) (s : GameState) (head : Position)
    (t : List Position) (hp : s.gameStatus = .PLAYING) (hsn : s.snake = head :: t)
    (hoob : outOfBounds (moveHead head s.direction) = false)
    (hocc : isPositionOccupied s.snake (moveHead head s.direction) = false)
    (hf : moveHead head s.direction = s.food)
    (hg₁ : generateFood (moveHead head s.direction :: s.snake) c₁ = none) :
    tick c₁ c₂ s = none := by
  have hcond : ((moveHead head s.direction).x == s.food.x &&
      (moveHead head s.direction).y == s.food.y) = true :=
    (position_beq_iff _ _).mpr hf
  have hms : moveSnake c₁ s = none := by
    rw [moveSnake_cons c₁ s head t hsn]
    simp [hoob, hocc, hcond, hg₁]
  simp [tick, hp, hms]

theorem tick_eat_none₂ (c₁ c₂ : List Position) (s : GameState) (head f₁ : Position)
    (t : List Position) (hp : s.gameStatus = .PLAYING) (hsn : s.snake = head :: t)
    (hoob : outOfBounds (moveHead head s.direction) = false)
    (hocc : isPositionOccupied s.snake (moveHead head s.direction) = false)
    (hf : moveHead head s.direction = s.food)
    (hg₁ : generateFood (moveHead head s.direction :: s.snake) c₁ = some f₁)
    (hg₂ : generateFood (moveHead head s.direction :: s.snake) c₂ = none) :
    tick c₁ c₂ s = none := by
  have hcond : ((moveHead head s.direction).x == s.food.x &&
      (moveHead head s.direction).y == s.food.y) = true :=
    (position_beq_iff _ _).mpr hf
  have hms : moveSnake c₁ s =
      some { s with
              snake := moveHead head s.direction :: s.snake
              food := f₁
              score := s.score + 10
              speed := max MIN_SPEED (s.speed - SPEED_INCREMENT) } := by
    rw [moveSnake_cons c₁ s head t hsn]
    simp [hoob, hocc, hcond, hg₁]
  have hne : moveHead head s.direction :: s.snake ≠ s.snake :=
    List.cons_ne_self _ _
  simp [tick, hp, hms, hne, hg₂]

theorem dropLast_move_ne (s : GameState) (head : Position) (t : List Position)
    (hsn : s.snake = head :: t) :
    (moveHead head s.direction :: s.snake).dropLast ≠ s.snake := by
  rw [hsn]
  intro hcontra
  rw [List.dropLast_cons₂] at hcontra
  have hh : moveHead head s.direction = head := by
    have := congrArg List.head? hcontra
    simpa using this
  exact moveHead_ne head s.direction hh

theorem tick_move (c₁ c₂ : List Position) (s : GameState) (head f : Position)
    (t : List Position) (hp : s.gameStatus = .PLAYING) (hsn : s.snake = head :: t)
    (hoob : outOfBounds (moveHead head s.direction) = false)
    (hocc : isPositionOccupied s.snake (moveHead head s.direction) = false)
    (hf : moveHead head s.direction ≠ s.food)
    (hg₂ : generateFood ((moveHead head s.direction :: s.snake).dropLast) c₂ = some f) :
    tick c₁ c₂ s =
      some { s with
              snake := (moveHead head s.direction :: s.snake).dropLast
              food := f } := by
  have hcond : ((moveHead head s.direction).x == s.food.x &&
      (moveHead head s.direction).y == s.food.y) = false :=
    Bool.eq_false_iff.mpr (mt (position_beq_iff _ _).mp hf)
  have hms : moveSnake c₁ s =
      some { s with snake := (moveHead head s.direction :: s.snake).dropLast } := by
    rw [moveSnake_cons c₁ s head t hsn]
    simp [hoob, hocc, hcond]
  have hne := dropLast_move_ne s head t hsn
  simp [tick, hp, hms, hne, hg₂]

theorem tick_move_none (c₁ c₂ : List Position) (s : GameState) (head : Position)
    (t : List Position) (hp : s.gameStatus = .PLAYING) (hsn : s.snake = head :: t)
    (hoob : outOfBounds (moveHead head s.direction) = false)
    (hocc : isPositionOccupied s.snake (moveHead head s.direction) = false)
    (hf : moveHead head s.direction ≠ s.food)
    (hg₂ : generateFood ((moveHead head s.direction :: s.snake).dropLast) c₂ = none) :
    tick c₁ c₂ s = none := by
  have hcond : ((moveHead head s.direction).x == s.food.x &&
      (moveHead head s.direction).y == s.food.y) = false :=
    Bool.eq_false_iff.mpr (mt (position_beq_iff _ _).mp hf)
  have hms : moveSnake c₁ s =
      some { s with snake := (moveHead head s.direction :: s.snake).dropLast } := by
    rw [moveSnake_cons c₁ s head t hsn]
    simp [hoob, hocc, hcond]
  have hne := dropLast_move_ne s head t hsn
  simp [tick, hp, hms, hne, hg₂]

/-! The claims. -/

/-- C5: While PLAYING, a tick whose new head cell (current head moved one
step in the current direction) lies outside the board bounds sets the
status to GAME_OVER and leaves the rest of the state unchanged: snake,
food, direction, score and speed keep their prior values. -/
theorem wall_collision_ends_game (c₁ c₂ : List Position) (s s' : GameState)
    (head : Position) (t : List Position)
    (hp : s.gameStatus = .PLAYING) (hsn : s.snake = head :: t)
    (hoob : outOfBounds (moveHead head s.direction) = true)
    (ht : tick c₁ c₂ s = some s') :
    s'.gameStatus = .GAME_OVER ∧ s'.snake = s.snake ∧ s'.food = s.food ∧
      s'.direction = s.direction ∧ s'.score = s.score ∧ s'.speed = s.speed := by
  rw [tick_oob c₁ c₂ s head t hp hsn hoob, Option.some.injEq] at ht
  subst ht
  exact ⟨rfl, rfl, rfl, rfl, rfl, rfl⟩

/-- Witness for C5: from `wallState` the head moves to `(-1,5)`, the
game ends and everything else is untouched. -/
theorem wall_collision_ends_game_witness :
    ({ wallState with gameStatus := .GAME_OVER } : GameState).gameStatus = .GAME_OVER ∧
      ({ wallState with gameStatus := .GAME_OVER } : GameState).snake = wallState.snake ∧
      ({ wallState with gameStatus := .GAME_OVER } : GameState).food = wallState.food ∧
      ({ wallState with gameStatus := .GAME_OVER } : GameState).direction = wallState.direction ∧
      ({ wallState with gameStatus := .GAME_OVER } : GameState).score = wallState.score ∧
      ({ wallState with gameStatus := .GAME_OVER } : GameState).speed = wallState.speed :=
  wall_collision_ends_game [] [] wallState { wallState with gameStatus := .GAME_OVER }
    ⟨0, 5⟩ [⟨1, 5⟩] rfl rfl (by decide) (by decide)

/-- C9: While PLAYING, a tick whose in-bounds new head cell equals the
current tail cell ends the game: the self-collision check of `moveSnake`
runs over the whole previous snake, tail included, even though on a
non-growing move that tail cell would be vacated. -/
theorem tail_collision_ends_game (c₁ c₂ : List Position) (s : GameState)
    (head : Position) (t : List Position)
    (hp : s.gameStatus = .PLAYING) (hsn : s.snake = head :: t)
    (hlast : s.snake.getLast? = some (moveHead head s.direction))
    (hin : outOfBounds (moveHead head s.direction) = false) :
    tick c₁ c₂ s = some { s with gameStatus := .GAME_OVER } := by
  have hmem : moveHead head s.direction ∈ s.snake := by
    obtain ⟨hne, heq⟩ :=
      List.mem_getLast?_eq_getLast (l := s.snake) (by rw [hlast]; rfl)
    rw [heq]
    exact List.getLast_mem hne
  exact tick_self c₁ c₂ s head t hp hsn hin ((isPositionOccupied_iff _ _).mpr hmem)

/-- Witness for C9: the two-cell snake of `tailState` moves DOWN onto
its own tail cell `(10,11)` and the game ends. -/
theorem tail_collision_ends_game_witness :
    tick [] [] tailState = some { tailState with gameStatus := .GAME_OVER } :=
  tail_collision_ends_game [] [] tailState ⟨10, 10⟩ [⟨10, 11⟩]
    rfl rfl (by decide) (by decide)

/-- C7: Once the status is GAME_OVER, any sequence of ticks (before any
reset) leaves the whole state — snake, food, direction, status, score
and speed — unchanged: the game-loop effect registers no interval. -/
theorem game_over_ticks_noop (cs : List (List Position × List Position))
    (s : GameState) (h : s.gameStatus = .GAME_OVER) : ticks cs s = some s := by
  induction cs with
  | nil => rfl
  | cons c rest ih =>
    obtain ⟨c₁, c₂⟩ := c
    have hnp : s.gameStatus ≠ .PLAYING := by rw [h]; decide
    simp [ticks, tick_not_playing c₁ c₂ s hnp, ih]

/-- Witness for C7: three ticks from `gameOverState` change nothing. -/
theorem game_over_ticks_noop_witness :
    ticks [([], []), ([⟨1, 1⟩], [⟨2, 2⟩]), ([], [])] gameOverState = some gameOverState :=
  game_over_ticks_noop [([], []), ([⟨1, 1⟩], [⟨2, 2⟩]), ([], [])] gameOverState rfl

/-- C8: From any prior state, `initGame` (the reset action) sets the
snake to the fixed three-cell sequence `[(10,10),(10,11),(10,12)]`, the
direction to UP, the score to 0, the speed to 150, the food to a cell
not on that snake, and the status to PLAYING. -/
theorem reset_reinitializes (c : List Position) (prev : GameState) (f : Position)
    (hg : generateFood INITIAL_SNAKE c = some f) :
    initGame c prev =
      some { snake := [⟨10, 10⟩, ⟨10, 11⟩, ⟨10, 12⟩], food := f, direction := .UP,
             gameStatus := .PLAYING, score := 0, speed := 150 }
    ∧ isPositionOccupied [⟨10, 10⟩, ⟨10, 11⟩, ⟨10, 12⟩] f = false := by
  constructor
  · simp [initGame, hg]
    exact ⟨rfl, rfl⟩
  · exact generateFood_not_occupied INITIAL_SNAKE c f hg

/-- Witness for C8: resetting from `gameOverState` with the draw `(5,5)`
restores the initial snake, score 0, speed 150, status PLAYING. -/
theorem reset_reinitializes_witness :
    initGame [⟨5, 5⟩] gameOverState =
      some { snake := [⟨10, 10⟩, ⟨10, 11⟩, ⟨10, 12⟩], food := ⟨5, 5⟩, direction := .UP,
             gameStatus := .PLAYING, score := 0, speed := 150 }
    ∧ isPositionOccupied [⟨10, 10⟩, ⟨10, 11⟩, ⟨10, 12⟩] ⟨5, 5⟩ = false :=
  reset_reinitializes [⟨5, 5⟩] gameOverState ⟨5, 5⟩ (by decide)

/-- C6: A direction request is ignored entirely when the status is not
PLAYING; it is a silent no-op when the requested direction is the exact
reverse of the current one; otherwise it only replaces the direction,
which is then the one applied on the next tick. -/
theorem direction_request_guard (d : Direction) (s : GameState) :
    (s.gameStatus ≠ .PLAYING → handleSwipe d s = s)
    ∧ (d = s.direction.reverse → handleSwipe d s = s)
    ∧ (s.gameStatus = .PLAYING → d ≠ s.direction.reverse →
        handleSwipe d s = { s with direction := d }) := by
  obtain ⟨snake, food, dir, gs, score, speed⟩ := s
  cases gs <;> cases d <;> cases dir <;>
    exact ⟨fun h => by simp_all [handleSwipe, Direction.reverse],
           fun h => by simp_all [handleSwipe, Direction.reverse],
           fun h₁ h₂ => by simp_all [handleSwipe, Direction.reverse]⟩

/-- Witness for C6: from `exampleState` (heading UP) a DOWN request is
ignored and a LEFT request is applied. -/
theorem direction_request_guard_witness :
    handleSwipe .DOWN exampleState = exampleState
    ∧ handleSwipe .LEFT exampleState = { exampleState with direction := .LEFT } :=
  ⟨(direction_request_guard .DOWN exampleState).2.1 (by decide),
   (direction_request_guard .LEFT exampleState).2.2 rfl (by decide)⟩

/-- C10: Two accepted direction changes between consecutive ticks can
reverse the direction: from `exampleState` (heading UP) a LEFT request
is accepted, then a DOWN request is accepted — the guard compares
against the pending LEFT, not the last-applied UP — so the direction
applied on the next tick is DOWN, the exact reverse of UP. -/
theorem double_turn_net_reversal :
    (handleSwipe .LEFT exampleState).direction = .LEFT
    ∧ (handleSwipe .DOWN (handleSwipe .LEFT exampleState)).direction = .DOWN
    ∧ (handleSwipe .DOWN (handleSwipe .LEFT exampleState)).direction =
        Direction.reverse exampleState.direction
    ∧ (handleSwipe .DOWN exampleState).direction = exampleState.direction := by
  decide

/-- C2: While PLAYING, a tick whose in-bounds, non-colliding new head
cell equals the food cell adds 10 to the score, sets the speed to
`max MIN_SPEED (speed - SPEED_INCREMENT)`, grows the snake by prepending
the new head while retaining the tail, and leaves the food on a cell not
occupied by the new snake. -/
theorem eat_tick_effects (c₁ c₂ : List Position) (s s' : GameState)
    (head : Position) (t : List Position)
    (hp : s.gameStatus = .PLAYING) (hsn : s.snake = head :: t)
    (hin : outOfBounds (moveHead head s.direction) = false)
    (hocc : isPositionOccupied s.snake (moveHead head s.direction) = false)
    (hf : moveHead head s.direction = s.food)
    (ht : tick c₁ c₂ s = some s') :
    s'.score = s.score + 10
    ∧ s'.speed = max MIN_SPEED (s.speed - SPEED_INCREMENT)
    ∧ s'.snake = moveHead head s.direction :: s.snake
    ∧ isPositionOccupied s'.snake s'.food = false := by
  cases hg₁ : generateFood (moveHead head s.direction :: s.snake) c₁ with
  | none =>
    rw [tick_eat_none₁ c₁ c₂ s head t hp hsn hin hocc hf hg₁] at ht
    cases ht
  | some f₁ =>
    cases hg₂ : generateFood (moveHead head s.direction :: s.snake) c₂ with
    | none =>
      rw [tick_eat_none₂ c₁ c₂ s head f₁ t hp hsn hin hocc hf hg₁ hg₂] at ht
      cases ht
    | some f₂ =>
      rw [tick_eat c₁ c₂ s head f₁ f₂ t hp hsn hin hocc hf hg₁ hg₂,
        Option.some.injEq] at ht
      subst ht
      exact ⟨rfl, rfl, rfl, generateFood_not_occupied _ _ _ hg₂⟩

/-- Witness for C2: from `eatState` the head moves onto the food at
`(10,9)`; score goes to 10, speed to 145, the snake keeps its tail and
the relocated food `(3,3)` is off the snake. -/
theorem eat_tick_effects_witness :
    eatenState.score = eatState.score + 10
    ∧ eatenState.speed = max MIN_SPEED (eatState.speed - SPEED_INCREMENT)
    ∧ eatenState.snake = moveHead ⟨10, 10⟩ eatState.direction :: eatState.snake
    ∧ isPositionOccupied eatenState.snake eatenState.food = false :=
  eat_tick_effects [⟨7, 7⟩] [⟨3, 3⟩] eatState eatenState ⟨10, 10⟩ [⟨10, 11⟩, ⟨10, 12⟩]
    rfl rfl (by decide) (by decide) (by decide) (by decide)

/-- C3: The food is never on the snake: any successful `generateFood`
returns a cell not occupied by the snake it was given, and any tick from
a state whose food is off the snake produces a state whose food is off
the (new) snake. -/
theorem food_never_on_snake (body c c₁ c₂ : List Position) (f : Position)
    (s s' : GameState) :
    (generateFood body c = some f → isPositionOccupied body f = false)
    ∧ (isPositionOccupied s.snake s.food = false → tick c₁ c₂ s = some s' →
        isPositionOccupied s'.snake s'.food = false) := by
  refine ⟨fun hg => generateFood_not_occupied body c f hg, fun hinv ht => ?_⟩
  by_cases hp : s.gameStatus = .PLAYING
  · cases hsn : s.snake with
    | nil =>
      rw [tick_nil c₁ c₂ s hp hsn] at ht
      cases ht
    | cons head t =>
      cases hoob : outOfBounds (moveHead head s.direction) with
      | true =>
        rw [tick_oob c₁ c₂ s head t hp hsn hoob, Option.some.injEq] at ht
        subst ht
        exact hinv
      | false =>
        cases hocc : isPositionOccupied s.snake (moveHead head s.direction) with
        | true =>
          rw [tick_self c₁ c₂ s head t hp hsn hoob hocc, Option.some.injEq] at ht
          subst ht
          exact hinv
        | false =>
          by_cases hf : moveHead head s.direction = s.food
          · cases hg₁ : generateFood (moveHead head s.direction :: s.snake) c₁ with
            | none =>
              rw [tick_eat_none₁ c₁ c₂ s head t hp hsn hoob hocc hf hg₁] at ht
              cases ht
            | some f₁ =>
              cases hg₂ : generateFood (moveHead head s.direction :: s.snake) c₂ with
              | none =>
                rw [tick_eat_none₂ c₁ c₂ s head f₁ t hp hsn hoob hocc hf hg₁ hg₂] at ht
                cases ht
              | some f₂ =>
                rw [tick_eat c₁ c₂ s head f₁ f₂ t hp hsn hoob hocc hf hg₁ hg₂,
                  Option.some.injEq] at ht
                subst ht
                exact generateFood_not_occupied _ _ _ hg₂
          · cases hg₂ :
                generateFood ((moveHead head s.direction :: s.snake).dropLast) c₂ with
            | none =>
              rw [tick_move_none c₁ c₂ s head t hp hsn hoob hocc hf hg₂] at ht
              cases ht
            | some f =>
              rw [tick_move c₁ c₂ s head f t hp hsn hoob hocc hf hg₂,
                Option.some.injEq] at ht
              subst ht
              exact generateFood_not_occupied _ _ _ hg₂
  · rw [tick_not_playing c₁ c₂ s hp, Option.some.injEq] at ht
    subst ht
    exact hinv

/-- Witness for C3: a successful draw avoids the one-cell snake, and the
tick from `exampleState` to `movedState` keeps the food off the snake. -/
theorem food_never_on_snake_witness :
    isPositionOccupied [(⟨1, 1⟩ : Position)] ⟨2, 2⟩ = false
    ∧ isPositionOccupied movedState.snake movedState.food = false :=
  ⟨(food_never_on_snake [⟨1, 1⟩] [⟨2, 2⟩] [] [⟨0, 0⟩] ⟨2, 2⟩ exampleState movedState).1
      rfl,
   (food_never_on_snake [⟨1, 1⟩] [⟨2, 2⟩] [] [⟨0, 0⟩] ⟨2, 2⟩ exampleState movedState).2
      (by decide) (by decide)⟩

/-- C1: While PLAYING, with the food in bounds and off the snake, a tick
keeps the snake length or increases it by exactly one, and it increases
iff the new head cell equals the food cell; in particular the length
never decreases. -/
theorem tick_length_step (c₁ c₂ : List Position) (s s' : GameState)
    (head : Position) (t : List Position)
    (hp : s.gameStatus = .PLAYING) (hsn : s.snake = head :: t)
    (hfb : outOfBounds s.food = false)
    (hfs : isPositionOccupied s.snake s.food = false)
    (ht : tick c₁ c₂ s = some s') :
    (s'.snake.length = s.snake.length ∨ s'.snake.length = s.snake.length + 1)
    ∧ (s'.snake.length = s.snake.length + 1 ↔ moveHead head s.direction = s.food) := by
  cases hoob : outOfBounds (moveHead head s.direction) with
  | true =>
    rw [tick_oob c₁ c₂ s head t hp hsn hoob, Option.some.injEq] at ht
    subst ht
    refine ⟨Or.inl rfl, iff_of_false (by simp) fun hfood => ?_⟩
    rw [hfood, hfb] at hoob
    cases hoob
  | false =>
    cases hocc : isPositionOccupied s.snake (moveHead head s.direction) with
    | true =>
      rw [tick_self c₁ c₂ s head t hp hsn hoob hocc, Option.some.injEq] at ht
      subst ht
      refine ⟨Or.inl rfl, iff_of_false (by simp) fun hfood => ?_⟩
      rw [hfood, hfs] at hocc
      cases hocc
    | false =>
      by_cases hf : moveHead head s.direction = s.food
      · cases hg₁ : generateFood (moveHead head s.direction :: s.snake) c₁ with
        | none =>
          rw [tick_eat_none₁ c₁ c₂ s head t hp hsn hoob hocc hf hg₁] at ht
          cases ht
        | some f₁ =>
          cases hg₂ : generateFood (moveHead head s.direction :: s.snake) c₂ with
          | none =>
            rw [tick_eat_none₂ c₁ c₂ s head f₁ t hp hsn hoob hocc hf hg₁ hg₂] at ht
            cases ht
          | some f₂ =>
            rw [tick_eat c₁ c₂ s head f₁ f₂ t hp hsn hoob hocc hf hg₁ hg₂,
              Option.some.injEq] at ht
            subst ht
            exact ⟨Or.inr (by simp), iff_of_true (by simp) hf⟩
      · cases hg₂ :
            generateFood ((moveHead head s.direction :: s.snake).dropLast) c₂ with
        | none =>
          rw [tick_move_none c₁ c₂ s head t hp hsn hoob hocc hf hg₂] at ht
          cases ht
        | some f =>
          rw [tick_move c₁ c₂ s head f t hp hsn hoob hocc hf hg₂,
            Option.some.injEq] at ht
          subst ht
          have hlen : ((moveHead head s.direction :: s.snake).dropLast).length =
              s.snake.length := by
            rw [List.length_dropLast, List.length_cons]
            omega
          exact ⟨Or.inl hlen, iff_of_false (by rw [hlen]; simp) hf⟩

/-- Witness for C1: the non-eating tick from `exampleState` keeps the
length at 3, and indeed the new head `(10,9)` differs from the food. -/
theorem tick_length_step_witness :
    (movedState.snake.length = exampleState.snake.length ∨
      movedState.snake.length = exampleState.snake.length + 1)
    ∧ (movedState.snake.length = exampleState.snake.length + 1 ↔
        moveHead ⟨10, 10⟩ exampleState.direction = exampleState.food) :=
  tick_length_step [] [⟨0, 0⟩] exampleState movedState ⟨10, 10⟩ [⟨10, 11⟩, ⟨10, 12⟩]
    rfl rfl (by decide) (by decide) (by decide)

/-- C4: Evaluation of a non-eating, non-colliding tick at a concrete
state.  From `exampleState` (food at `(5,5)`) the head moves to
`(10,9)`, no food is eaten and no collision occurs, yet the tick
relocates the food to the effect's draw `(0,0)`: the effect of source
lines 184-186 re-runs `generateFood` because its dependency array
contains the snake, so the food does not keep its prior value.  Score,
speed and status do keep their prior values and the snake moves by head
prepend and tail removal. -/
theorem non_eat_tick_relocates_food :
    tick [] [⟨0, 0⟩] exampleState = some movedState
    ∧ moveHead ⟨10, 10⟩ exampleState.direction ≠ exampleState.food
    ∧ movedState.food ≠ exampleState.food
    ∧ movedState.gameStatus = .PLAYING
    ∧ movedState.score = exampleState.score
    ∧ movedState.speed = exampleState.speed
    ∧ movedState.snake =
        (moveHead ⟨10, 10⟩ exampleState.direction :: exampleState.snake).dropLast := by
  decide

end Snake
